import Mathlib

/-!
Shallow embedding of `src/ddbot.py` (xiyaowong/dingtalk-custom-robot).

The repository provides two classes, `DDBot` (sync) and `AsyncDDBot` (async),
each with a signed-webhook property, a `post` routine that issues the HTTP
request and classifies the response, and six payload-building message methods.

Bytes are modelled as `List Nat` (each entry `< 256`), machine 32-bit words as
`Nat` reduced modulo `2 ^ 32`.  The cryptographic primitives the source calls
(`hashlib.sha256`, `hmac`, `base64.b64encode`, `urllib.parse.quote_plus`) are
implemented here executably, following their standard definitions
(FIPS 180-4, RFC 2104, RFC 4648, CPython `urllib.parse`).
-/

/-- Reduce a natural number modulo `2 ^ 32` (32-bit word arithmetic). -/
def w32 (n : Nat) : Nat := n % 4294967296

/-- Right rotation of a 32-bit word by `n` bits. -/
def rotr (n x : Nat) : Nat := w32 (x / 2 ^ n + x * 2 ^ (32 - n))

/-- Logical right shift of a 32-bit word by `n` bits. -/
def shr (n x : Nat) : Nat := x / 2 ^ n

/-- Bitwise complement of a 32-bit word. -/
def bnot32 (x : Nat) : Nat := 4294967295 - w32 x

/-- SHA-256 choice function. -/
def shaCh (x y z : Nat) : Nat := (x &&& y) ^^^ (bnot32 x &&& z)

/-- SHA-256 majority function. -/
def shaMaj (x y z : Nat) : Nat := (x &&& y) ^^^ (x &&& z) ^^^ (y &&& z)

/-- SHA-256 big sigma 0. -/
def bsig0 (x : Nat) : Nat := rotr 2 x ^^^ rotr 13 x ^^^ rotr 22 x

/-- SHA-256 big sigma 1. -/
def bsig1 (x : Nat) : Nat := rotr 6 x ^^^ rotr 11 x ^^^ rotr 25 x

/-- SHA-256 small sigma 0. -/
def ssig0 (x : Nat) : Nat := rotr 7 x ^^^ rotr 18 x ^^^ shr 3 x

/-- SHA-256 small sigma 1. -/
def ssig1 (x : Nat) : Nat := rotr 17 x ^^^ rotr 19 x ^^^ shr 10 x

/-- SHA-256 round constants (FIPS 180-4), written in decimal. -/
def sha256K : List Nat :=
  [1116352408, 1899447441, 3049323471, 3921009573, 961987163,
   1508970993, 2453635748, 2870763221, 3624381080, 310598401,
   607225278, 1426881987, 1925078388, 2162078206, 2614888103,
   3248222580, 3835390401, 4022224774, 264347078, 604807628,
   770255983, 1249150122, 1555081692, 1996064986, 2554220882,
   2821834349, 2952996808, 3210313671, 3336571891, 3584528711,
   113926993, 338241895, 666307205, 773529912, 1294757372,
   1396182291, 1695183700, 1986661051, 2177026350, 2456956037,
   2730485921, 2820302411, 3259730800, 3345764771, 3516065817,
   3600352804, 4094571909, 275423344, 430227734, 506948616,
   659060556, 883997877, 958139571, 1322822218, 1537002063,
   1747873779, 1955562222, 2024104815, 2227730452, 2361852424,
   2428436474, 2756734187, 3204031479, 3329325298]

/-- SHA-256 initial hash value (FIPS 180-4), written in decimal. -/
def sha256H0 : List Nat :=
  [1779033703, 3144134277, 1013904242, 2773480762,
   1359893119, 2600822924, 528734635, 1541459225]

/-- Combine four bytes (big-endian) into one 32-bit word. -/
def wordOfBytes (b0 b1 b2 b3 : Nat) : Nat :=
  b0 * 16777216 + b1 * 65536 + b2 * 256 + b3

/-- Split a 32-bit word into four bytes, big-endian. -/
def wordBytes (x : Nat) : List Nat :=
  [x / 16777216 % 256, x / 65536 % 256, x / 256 % 256, x % 256]

/-- Group a byte list into 32-bit words, big-endian. -/
def bytesToWords : List Nat → List Nat
  | b0 :: b1 :: b2 :: b3 :: rest => wordOfBytes b0 b1 b2 b3 :: bytesToWords rest
  | _ => []

/-- Extend the 16 message words of a block to the 64-entry SHA-256 schedule. -/
def sha256Schedule (w0 : List Nat) : Array Nat :=
  (List.range 48).foldl
    (fun w _ =>
      let t := w.size
      w.push (w32 (ssig1 (w.getD (t - 2) 0) + w.getD (t - 7) 0 +
                   ssig0 (w.getD (t - 15) 0) + w.getD (t - 16) 0)))
    w0.toArray

/-- SHA-256 compression of one message block into the running hash state
(eight 32-bit words). -/
def sha256Compress (h : List Nat) (w : Array Nat) : List Nat :=
  let a0 := h.getD 0 0
  let b0 := h.getD 1 0
  let c0 := h.getD 2 0
  let d0 := h.getD 3 0
  let e0 := h.getD 4 0
  let f0 := h.getD 5 0
  let g0 := h.getD 6 0
  let h0 := h.getD 7 0
  let s := (List.range 64).foldl
    (fun (s : Nat × Nat × Nat × Nat × Nat × Nat × Nat × Nat) i =>
      let (a, b, c, d, e, f, g, hh) := s
      let t1 := w32 (hh + bsig1 e + shaCh e f g + sha256K.getD i 0 + w.getD i 0)
      let t2 := w32 (bsig0 a + shaMaj a b c)
      (w32 (t1 + t2), a, b, c, w32 (d + t1), e, f, g))
    (a0, b0, c0, d0, e0, f0, g0, h0)
  let (a, b, c, d, e, f, g, hh) := s
  [w32 (a0 + a), w32 (b0 + b), w32 (c0 + c), w32 (d0 + d),
   w32 (e0 + e), w32 (f0 + f), w32 (g0 + g), w32 (h0 + hh)]

/-- Eight-byte big-endian encoding of a length-in-bits value. -/
def lenBytes8 (n : Nat) : List Nat :=
  (List.range 8).map (fun i => n / 2 ^ (8 * (7 - i)) % 256)

/-- SHA-256 of a byte string (FIPS 180-4), as called through Python
`hashlib.sha256`. -/
def sha256 (msg : List Nat) : List Nat :=
  let L := msg.length
  let padded := msg ++ 0x80 :: List.replicate ((119 - L % 64) % 64) 0 ++ lenBytes8 (8 * L)
  let blocks := List.toChunks 64 padded
  let final := blocks.foldl
    (fun h blk => sha256Compress h (sha256Schedule (bytesToWords blk))) sha256H0
  (final.map wordBytes).foldr (fun a b => a ++ b) []

/-- HMAC-SHA256 (RFC 2104, block size 64), as called through Python
`hmac.new(key, msg, digestmod=hashlib.sha256)`. -/
def hmacSha256 (key msg : List Nat) : List Nat :=
  let k0 := if key.length > 64 then sha256 key else key
  let k := k0 ++ List.replicate (64 - k0.length) 0
  let ipad := k.map (fun b => b ^^^ 0x36)
  let opad := k.map (fun b => b ^^^ 0x5c)
  sha256 (opad ++ sha256 (ipad ++ msg))

/-- The standard base64 alphabet (RFC 4648). -/
def b64Alphabet : String :=
  "ABCDEFGHIJKLMNOPQRSTUVWXYZabcdefghijklmnopqrstuvwxyz0123456789+/"

/-- Character of the base64 alphabet at a six-bit index. -/
def b64Char (n : Nat) : Char := b64Alphabet.data.getD n 'A'

/-- Standard base64 encoding of a byte string (RFC 4648), as called through
Python `base64.b64encode`. -/
def b64encode : List Nat → String
  | [] => ""
  | [b0] =>
    String.mk [b64Char (b0 / 4), b64Char (b0 % 4 * 16), '=', '=']
  | [b0, b1] =>
    let n := b0 * 256 + b1
    String.mk [b64Char (n / 1024), b64Char (n / 16 % 64), b64Char (n % 16 * 4), '=']
  | b0 :: b1 :: b2 :: rest =>
    let n := b0 * 65536 + b1 * 256 + b2
    String.mk [b64Char (n / 262144), b64Char (n / 4096 % 64),
               b64Char (n / 64 % 64), b64Char (n % 64)] ++ b64encode rest

/-- UTF-8 encoding of a string as a byte list (Python `str.encode("utf-8")`);
the bytes are exactly those of `String.toUTF8`. -/
def utf8 (s : String) : List Nat :=
  (s.data.flatMap String.utf8EncodeChar).map (fun b => b.toNat)

/-- Uppercase hexadecimal digit for a value below 16. -/
def hexUpper (n : Nat) : Char := "0123456789ABCDEF".data.getD n '0'

/-- Percent-encoding of one byte, uppercase hex. -/
def pctByte (b : Nat) : String := String.mk ['%', hexUpper (b / 16), hexUpper (b % 16)]

/-- The characters CPython `urllib.parse.quote` never encodes
(ASCII letters, digits, and the four marks). -/
def urlAlwaysSafe (c : Char) : Bool :=
  c.isAlphanum || c = '_' || c = '.' || c = '-' || c = '~'

/-- Image of one character under `quote_plus`: space becomes a plus sign, safe
characters pass through, every other character has each of its UTF-8 bytes
percent-encoded. -/
def quotePlusChar (c : Char) : String :=
  if c = ' ' then "+"
  else if urlAlwaysSafe c then String.singleton c
  else String.join ((utf8 (String.singleton c)).map pctByte)

/-- CPython `urllib.parse.quote_plus` with default arguments: form-style
percent-encoding with space represented as a plus sign. -/
def quotePlus (s : String) : String := String.join (s.data.map quotePlusChar)

/-- Query-string assembly over key-value pairs joined by ampersands. -/
def queryString : List (String × String) → String
  | [] => ""
  | [p] => p.1 ++ "=" ++ p.2
  | p :: q :: rest => p.1 ++ "=" ++ p.2 ++ "&" ++ queryString (q :: rest)

/-- Models the `httpx.URL(base, params)` call of the source: the external
transport library renders the URL as `base?k1=v1&k2=v2&...`; the spec gives the
output shape `baseURL?timestamp=...&sign=...&access_token=...`. -/
def httpxURL (base : String) (params : List (String × String)) : String :=
  base ++ "?" ++ queryString params

/-- JSON values as decoded by Python `json` (numbers restricted to integers,
which covers every error code the protocol uses). An object is a key-value
list; `json.loads` produces a dict, so keys are distinct. -/
inductive Json where
  | null : Json
  | bool (b : Bool) : Json
  | num (n : Int) : Json
  | str (s : String) : Json
  | arr (xs : List Json) : Json
  | obj (kvs : List (String × Json)) : Json

/-- Python exceptions that the response-handling code can raise. -/
inductive PyExc where
  | keyError (k : String) : PyExc
  | typeError (msg : String) : PyExc
deriving DecidableEq, Repr

/-- Lookup of a key in a JSON object's key-value list. -/
def jLookup : List (String × Json) → String → Option Json
  | [], _ => none
  | (k, v) :: rest, key => if k == key then some v else jLookup rest key

/-- Python repr of a string: quote choice and escaping as CPython performs it
for the common escapes (backslash, quotes, newline, tab, carriage return). -/
def pyReprStr (s : String) : String :=
  let q : Char := if s.data.contains '\x27' && !s.data.contains '"' then '"' else '\x27'
  let body := String.join (s.data.map (fun c =>
    if c = '\\' then "\\\\"
    else if c = q then String.mk ['\\', q]
    else if c = '\n' then "\\n"
    else if c = '\t' then "\\t"
    else if c = '\r' then "\\r"
    else String.singleton c))
  String.singleton q ++ body ++ String.singleton q

mutual

/-- Python repr of a decoded JSON value. -/
def pyRepr : Json → String
  | .null => "None"
  | .bool true => "True"
  | .bool false => "False"
  | .num n => toString n
  | .str s => pyReprStr s
  | .arr xs => "[" ++ String.intercalate ", " (pyReprList xs) ++ "]"
  | .obj kvs => "\x7b" ++ String.intercalate ", " (pyReprPairs kvs) ++ "\x7d"

/-- Python reprs of the elements of a decoded JSON array. -/
def pyReprList : List Json → List String
  | [] => []
  | j :: rest => pyRepr j :: pyReprList rest

/-- Python reprs of the entries of a decoded JSON object. -/
def pyReprPairs : List (String × Json) → List String
  | [] => []
  | (k, v) :: rest => (pyReprStr k ++ ": " ++ pyRepr v) :: pyReprPairs rest

end

/-- Python str of a decoded JSON value (as interpolated by `str.format`). -/
def pyStr : Json → String
  | .str s => s
  | j => pyRepr j

/-- Python subscription `res[key]` on a decoded JSON value: objects look the
key up (KeyError when absent), every other decoded value raises TypeError. -/
def subscript : Json → String → Except PyExc Json
  | .obj kvs, k =>
    match jLookup kvs k with
    | some v => .ok v
    | none => .error (.keyError k)
  | .arr _, _ => .error (.typeError "list indices must be integers or slices, not str")
  | .str _, _ => .error (.typeError "string indices must be integers")
  | .num _, _ => .error (.typeError "int object is not subscriptable")
  | .bool _, _ => .error (.typeError "bool object is not subscriptable")
  | .null, _ => .error (.typeError "NoneType object is not subscriptable")

/-- Python equality of a decoded JSON value against an integer literal
(`res["errcode"] == 0`): numbers compare numerically, booleans compare as
0 and 1 (bool is an int subclass), everything else compares unequal. -/
def pyEqInt : Json → Int → Bool
  | .num n, m => n == m
  | .bool b, m => (if b then (1 : Int) else 0) == m
  | _, _ => false

/-- Models `"<pre> errcode: {errcode}, errmsg: {errmsg}".format(**res)`:
requires `res` to be a mapping holding both keys, raising KeyError for the
first absent one (fields are interpolated via Python str). -/
def formatCodeMsg (pre : String) : Json → Except PyExc String
  | .obj kvs =>
    match jLookup kvs "errcode" with
    | none => .error (.keyError "errcode")
    | some c =>
      match jLookup kvs "errmsg" with
      | none => .error (.keyError "errmsg")
      | some m => .ok (pre ++ " errcode: " ++ pyStr c ++ ", errmsg: " ++ pyStr m)
  | _ => .error (.typeError "format argument after must be a mapping")

/-- An HTTP response as the external `httpx` transport presents it to the
source: a status code, the body text, and the result of the transport's
`resp.json()` decode attempt (`none` when the body is not valid JSON). -/
structure HttpResponse where
  status : Nat
  text : String
  jsonDecoded : Option Json

/-- Outcome of the transport call `self.client.post(...)`: either the call
raises (network error, timeout, carrying a traceback text), or it yields a
response. -/
inductive HttpOutcome where
  | raise (tb : String) : HttpOutcome
  | response (resp : HttpResponse) : HttpOutcome

/-- Logging level of an emitted log record. -/
inductive LogLevel where
  | info : LogLevel
  | error : LogLevel
deriving DecidableEq, Repr

/-- One emitted log record: level and message. -/
structure LogEntry where
  level : LogLevel
  msg : String

/-- The three-way return of `post`: the `None` sentinel (request failed), the
raw response text (decode failed), or the decoded JSON structure. -/
inductive PostResult where
  | none : PostResult
  | raw (text : String) : PostResult
  | decoded (res : Json) : PostResult

/-- Models `httpx` `resp.raise_for_status()`: the transport raises unless the
status code is a 2xx success; the logged traceback for that raise. -/
def httpStatusTraceback (status : Nat) : String :=
  "Traceback (most recent call last): httpx.HTTPStatusError status " ++ toString status

namespace DDBot

/-- Translation of `DDBot.webhook` (src/ddbot.py lines 48-66). Wall-clock
millisecond timestamp `str(round(time.time() * 1000))` is a parameter. -/
def webhook (secret access_token timestamp : String) : String :=
  let secret_enc := utf8 secret
  let string_to_sign := timestamp ++ "\n" ++ secret
  let string_to_sign_enc := utf8 string_to_sign
  let hmac_code := hmacSha256 secret_enc string_to_sign_enc
  let sign := quotePlus (b64encode hmac_code)
  httpxURL "https://oapi.dingtalk.com/robot/send"
    [("timestamp", timestamp), ("sign", sign), ("access_token", access_token)]

/-- Translation of `DDBot.post` (src/ddbot.py lines 68-99). The payload is
serialized over the wire and does not influence the local result; the
transport behaviour for this call is the `outcome` parameter. `Except.error`
models an exception escaping `post`; the pair lists the emitted log records
and the returned value. -/
def post (payload : Json) (outcome : HttpOutcome) :
    Except PyExc (List LogEntry × PostResult) :=
  match outcome with
  | .raise tb => .ok ([⟨.error, tb⟩], .none)
  | .response resp =>
    if 200 ≤ resp.status ∧ resp.status < 300 then
      match resp.jsonDecoded with
      | none => .ok ([⟨.error, "请求返回格式错误"⟩], .raw resp.text)
      | some res =>
        match subscript res "errcode" with
        | .error e => .error e
        | .ok code =>
          if pyEqInt code 0 then
            (formatCodeMsg "请求成功" res).map (fun m => ([⟨.info, m⟩], .decoded res))
          else if pyEqInt code 310000 then
            (formatCodeMsg "校验未通过" res).map (fun m => ([⟨.error, m⟩], .decoded res))
          else
            (formatCodeMsg "API错误" res).map (fun m => ([⟨.error, m⟩], .decoded res))
    else .ok ([⟨.error, httpStatusTraceback resp.status⟩], .none)

end DDBot

/-- One element of an `atMobiles` list: Python int or str. -/
inductive AtItem where
  | int (n : Int) : AtItem
  | str (s : String) : AtItem

/-- The `atMobiles` argument of `text`/`markdown`: omitted (`None`), a scalar
int (not a `Sequence`, so it is wrapped), a Python str (which IS a
`collections.abc.Sequence`, of its characters), or a list. -/
inductive AtMobiles where
  | none : AtMobiles
  | int (n : Int) : AtMobiles
  | str (s : String) : AtMobiles
  | list (xs : List AtItem) : AtMobiles

/-- Python `str(i)` on an `atMobiles` element. -/
def atItemStr : AtItem → String
  | .int n => toString n
  | .str s => s

/-- The normalization both `text` and `markdown` perform: `None` becomes `[]`,
a `Sequence` becomes `list(...)` of its elements (for a str, its characters),
and any other scalar is wrapped into a one-element list. -/
def normalizeAtMobiles : AtMobiles → List AtItem
  | .none => []
  | .int n => [.int n]
  | .str s => s.data.map (fun c => .str (String.singleton c))
  | .list xs => xs

/-- The `btns` argument of `separatedActionCard`: a single (title, actionURL)
tuple or a list of such tuples. -/
inductive BtnsArg where
  | single (p : String × String) : BtnsArg
  | list (ps : List (String × String)) : BtnsArg

/-- The tuple check `if isinstance(btns, tuple): btns = [btns]`. -/
def normalizeBtns : BtnsArg → List (String × String)
  | .single p => [p]
  | .list ps => ps

/-- The `links` argument of `feedCard`: a single (title, messageURL, picURL)
tuple or a list of such tuples. -/
inductive LinksArg where
  | single (t : String × String × String) : LinksArg
  | list (ts : List (String × String × String)) : LinksArg

/-- The tuple check `if isinstance(links, tuple): links = [links]`. -/
def normalizeLinks : LinksArg → List (String × String × String)
  | .single t => [t]
  | .list ts => ts

namespace DDBot

/-- Payload built by `DDBot.text` (src/ddbot.py lines 101-121) and handed to
`post`. -/
def text (content : String) (atMobiles : AtMobiles) (isAtAll : Bool) : Json :=
  .obj [("msgtype", .str "text"),
        ("text", .obj [("content", .str content)]),
        ("at", .obj [("atMobiles",
                       .arr ((normalizeAtMobiles atMobiles).map (fun i => .str (atItemStr i)))),
                     ("isAtAll", .bool isAtAll)])]

/-- Payload built by `DDBot.link` (src/ddbot.py lines 123-140). -/
def link (title text messageURL picURL : String) : Json :=
  .obj [("msgtype", .str "link"),
        ("link", .obj [("text", .str text), ("title", .str title),
                       ("picUrl", .str picURL), ("messageUrl", .str messageURL)])]

/-- Payload built by `DDBot.markdown` (src/ddbot.py lines 142-167). -/
def markdown (title text : String) (atMobiles : AtMobiles) (isAtAll : Bool) : Json :=
  .obj [("msgtype", .str "markdown"),
        ("markdown", .obj [("title", .str title), ("text", .str text)]),
        ("at", .obj [("atMobiles",
                       .arr ((normalizeAtMobiles atMobiles).map (fun i => .str (atItemStr i)))),
                     ("isAtAll", .bool isAtAll)])]

/-- Payload built by `DDBot.wholeActionCard` (src/ddbot.py lines 169-190). -/
def wholeActionCard (title text singleTitle singleURL : String)
    (btnOrientation : Int) : Json :=
  .obj [("actionCard", .obj [("title", .str title), ("text", .str text),
                             ("btnOrientation", .num btnOrientation),
                             ("singleTitle", .str singleTitle),
                             ("singleURL", .str singleURL)]),
        ("msgtype", .str "actionCard")]

/-- Payload built by `DDBot.separatedActionCard` (src/ddbot.py lines
192-219). -/
def separatedActionCard (title text : String) (btns : BtnsArg)
    (btnOrientation : Int) : Json :=
  .obj [("msgtype", .str "actionCard"),
        ("actionCard",
          .obj [("title", .str title), ("text", .str text),
                ("hideAvatar", .str "0"),
                ("btnOrientation", .num btnOrientation),
                ("btns", .arr ((normalizeBtns btns).map
                  (fun i => .obj [("title", .str i.1), ("actionURL", .str i.2)])))])]

/-- Payload built by `DDBot.feedCard` (src/ddbot.py lines 221-239). -/
def feedCard (links : LinksArg) : Json :=
  .obj [("msgtype", .str "feedCard"),
        ("feedCard",
          .obj [("links", .arr ((normalizeLinks links).map
                  (fun i => .obj [("title", .str i.1), ("messageURL", .str i.2.1),
                                  ("picURL", .str i.2.2)])))])]

end DDBot

namespace AsyncDDBot

/-- Translation of `AsyncDDBot.webhook` (src/ddbot.py lines 271-289). -/
def webhook (secret access_token timestamp : String) : String :=
  let secret_enc := utf8 secret
  let string_to_sign := timestamp ++ "\n" ++ secret
  let string_to_sign_enc := utf8 string_to_sign
  let hmac_code := hmacSha256 secret_enc string_to_sign_enc
  let sign := quotePlus (b64encode hmac_code)
  httpxURL "https://oapi.dingtalk.com/robot/send"
    [("timestamp", timestamp), ("sign", sign), ("access_token", access_token)]

/-- Translation of `AsyncDDBot.post` (src/ddbot.py lines 291-322); the await
suspension has no effect on the value computed. -/
def post (payload : Json) (outcome : HttpOutcome) :
    Except PyExc (List LogEntry × PostResult) :=
  match outcome with
  | .raise tb => .ok ([⟨.error, tb⟩], .none)
  | .response resp =>
    if 200 ≤ resp.status ∧ resp.status < 300 then
      match resp.jsonDecoded with
      | none => .ok ([⟨.error, "请求返回格式错误"⟩], .raw resp.text)
      | some res =>
        match subscript res "errcode" with
        | .error e => .error e
        | .ok code =>
          if pyEqInt code 0 then
            (formatCodeMsg "请求成功" res).map (fun m => ([⟨.info, m⟩], .decoded res))
          else if pyEqInt code 310000 then
            (formatCodeMsg "校验未通过" res).map (fun m => ([⟨.error, m⟩], .decoded res))
          else
            (formatCodeMsg "API错误" res).map (fun m => ([⟨.error, m⟩], .decoded res))
    else .ok ([⟨.error, httpStatusTraceback resp.status⟩], .none)

/-- Payload built by `AsyncDDBot.text` (src/ddbot.py lines 324-344). -/
def text (content : String) (atMobiles : AtMobiles) (isAtAll : Bool) : Json :=
  .obj [("msgtype", .str "text"),
        ("text", .obj [("content", .str content)]),
        ("at", .obj [("atMobiles",
                       .arr ((normalizeAtMobiles atMobiles).map (fun i => .str (atItemStr i)))),
                     ("isAtAll", .bool isAtAll)])]

/-- Payload built by `AsyncDDBot.link` (src/ddbot.py lines 346-363). -/
def link (title text messageURL picURL : String) : Json :=
  .obj [("msgtype", .str "link"),
        ("link", .obj [("text", .str text), ("title", .str title),
                       ("picUrl", .str picURL), ("messageUrl", .str messageURL)])]

/-- Payload built by `AsyncDDBot.markdown` (src/ddbot.py lines 365-390). -/
def markdown (title text : String) (atMobiles : AtMobiles) (isAtAll : Bool) : Json :=
  .obj [("msgtype", .str "markdown"),
        ("markdown", .obj [("title", .str title), ("text", .str text)]),
        ("at", .obj [("atMobiles",
                       .arr ((normalizeAtMobiles atMobiles).map (fun i => .str (atItemStr i)))),
                     ("isAtAll", .bool isAtAll)])]

/-- Payload built by `AsyncDDBot.wholeActionCard` (src/ddbot.py lines
392-413). -/
def wholeActionCard (title text singleTitle singleURL : String)
    (btnOrientation : Int) : Json :=
  .obj [("actionCard", .obj [("title", .str title), ("text", .str text),
                             ("btnOrientation", .num btnOrientation),
                             ("singleTitle", .str singleTitle),
                             ("singleURL", .str singleURL)]),
        ("msgtype", .str "actionCard")]

/-- Payload built by `AsyncDDBot.separatedActionCard` (src/ddbot.py lines
415-442). -/
def separatedActionCard (title text : String) (btns : BtnsArg)
    (btnOrientation : Int) : Json :=
  .obj [("msgtype", .str "actionCard"),
        ("actionCard",
          .obj [("title", .str title), ("text", .str text),
                ("hideAvatar", .str "0"),
                ("btnOrientation", .num btnOrientation),
                ("btns", .arr ((normalizeBtns btns).map
                  (fun i => .obj [("title", .str i.1), ("actionURL", .str i.2)])))])]

/-- Payload built by `AsyncDDBot.feedCard` (src/ddbot.py lines 444-464). -/
def feedCard (links : LinksArg) : Json :=
  .obj [("msgtype", .str "feedCard"),
        ("feedCard",
          .obj [("links", .arr ((normalizeLinks links).map
                  (fun i => .obj [("title", .str i.1), ("messageURL", .str i.2.1),
                                  ("picURL", .str i.2.2)])))])]

end AsyncDDBot

/-- Field access inside a payload: value of a key in a JSON object. -/
def jGet (j : Json) (k : String) : Option Json :=
  match j with
  | .obj kvs => jLookup kvs k
  | _ => none

/-- Elements of a JSON array. -/
def jArr (j : Json) : Option (List Json) :=
  match j with
  | .arr xs => some xs
  | _ => none

/-- The `at.atMobiles` list of a payload. -/
def atMobilesOf (payload : Json) : Option (List Json) :=
  (jGet payload "at").bind (fun a => (jGet a "atMobiles").bind jArr)

/-- The `actionCard.btns` list of a payload. -/
def btnsOf (payload : Json) : Option (List Json) :=
  (jGet payload "actionCard").bind (fun a => (jGet a "btns").bind jArr)

/-- The `feedCard.links` list of a payload. -/
def feedLinksOf (payload : Json) : Option (List Json) :=
  (jGet payload "feedCard").bind (fun a => (jGet a "links").bind jArr)

theorem quotePlus_append (a b : String) :
    quotePlus (a ++ b) = quotePlus a ++ quotePlus b := by
  apply String.ext
  simp [quotePlus, String.data_append]

/-- C1: for every secret and timestamp, `webhook` produces
`baseURL?timestamp=<timestamp>&sign=<urlEncodedSignature>&access_token=<token>`
where the signature is base64 of HMAC-SHA256 keyed by the secret over the
message `timestamp + "\n" + secret`; as the embedding is a pure function of
(secret, timestamp), recomputation yields the same signature and the inputs
are not mutated. -/
theorem webhook_url_and_signature :
    ∀ secret access_token timestamp : String,
      DDBot.webhook secret access_token timestamp =
        "https://oapi.dingtalk.com/robot/send?timestamp=" ++ timestamp ++ "&sign=" ++
          quotePlus (b64encode (hmacSha256 (utf8 secret)
            (utf8 (timestamp ++ "\n" ++ secret)))) ++
          "&access_token=" ++ access_token := by
  intro secret access_token timestamp
  apply String.ext
  simp [DDBot.webhook, httpxURL, queryString, String.data_append]

/-- C8: the URL-encoding `quotePlus` applied to the base64 signature in
`webhook` is form-style: it percent-encodes the characters plus and slash
(as %2B and %2F), and represents a space as a plus sign rather than %20. -/
theorem sign_urlencoding_form_style :
    (∀ a b : String, quotePlus (a ++ "+" ++ b) = quotePlus a ++ "%2B" ++ quotePlus b) ∧
    (∀ a b : String, quotePlus (a ++ "/" ++ b) = quotePlus a ++ "%2F" ++ quotePlus b) ∧
    (∀ a b : String, quotePlus (a ++ " " ++ b) = quotePlus a ++ "+" ++ quotePlus b) := by
  refine ⟨fun a b => ?_, fun a b => ?_, fun a b => ?_⟩
  · rw [quotePlus_append, quotePlus_append, (by decide : quotePlus "+" = "%2B")]
  · rw [quotePlus_append, quotePlus_append, (by decide : quotePlus "/" = "%2F")]
  · rw [quotePlus_append, quotePlus_append, (by decide : quotePlus " " = "+")]

/-- C6: for `text` and `markdown`, a scalar phone value as `atMobiles` yields
a one-element `at.atMobiles` list with the value stringified (in particular
`text("hello", atMobiles=123)` yields `["123"]`), a sequence yields one
stringified entry per element, and omitting the argument yields `[]`. -/
theorem text_markdown_atMobiles_normalization :
    atMobilesOf (DDBot.text "hello" (.int 123) false) = some [.str "123"] ∧
    (∀ (c : String) (b : Bool) (n : Int),
        atMobilesOf (DDBot.text c (.int n) b) = some [.str (toString n)]) ∧
    (∀ (c : String) (b : Bool) (xs : List AtItem),
        atMobilesOf (DDBot.text c (.list xs) b) =
          some (xs.map (fun i => .str (atItemStr i)))) ∧
    (∀ (c : String) (b : Bool), atMobilesOf (DDBot.text c .none b) = some []) ∧
    (∀ (t c : String) (b : Bool) (n : Int),
        atMobilesOf (DDBot.markdown t c (.int n) b) = some [.str (toString n)]) ∧
    (∀ (t c : String) (b : Bool) (xs : List AtItem),
        atMobilesOf (DDBot.markdown t c (.list xs) b) =
          some (xs.map (fun i => .str (atItemStr i)))) ∧
    (∀ (t c : String) (b : Bool), atMobilesOf (DDBot.markdown t c .none b) = some []) :=
  ⟨rfl, fun _ _ _ => rfl, fun _ _ _ => rfl, fun _ _ => rfl,
   fun _ _ _ _ => rfl, fun _ _ _ _ => rfl, fun _ _ _ => rfl⟩

/-- C10: a Python str passed as `atMobiles` is a `Sequence`, so it is split
into its characters: the payload's `at.atMobiles` holds one entry per
character, e.g. `atMobiles="123"` gives `["1","2","3"]`, not `["123"]`. -/
theorem text_markdown_atMobiles_string_is_sequence :
    atMobilesOf (DDBot.text "hello" (.str "123") false) =
      some [.str "1", .str "2", .str "3"] ∧
    (∀ (c s : String) (b : Bool),
        atMobilesOf (DDBot.text c (.str s) b) =
          some (s.data.map (fun ch => .str (String.singleton ch)))) ∧
    (∀ (t c s : String) (b : Bool),
        atMobilesOf (DDBot.markdown t c (.str s) b) =
          some (s.data.map (fun ch => .str (String.singleton ch)))) := by
  refine ⟨rfl, fun c s b => ?_, fun t c s b => ?_⟩ <;>
    simp [DDBot.text, DDBot.markdown, atMobilesOf, jGet, jLookup, jArr,
          normalizeAtMobiles, atItemStr, List.map_map, Function.comp]

/-- C7: a single (label, url) pair passed as `btns` to `separatedActionCard`
is wrapped into a one-element `btns` list (so `btns=("A","http://a")` yields
`[{"title":"A","actionURL":"http://a"}]`); likewise a single
(label, url, pictureURL) triple passed as `links` to `feedCard` is wrapped
into a one-element list of link objects. -/
theorem separatedActionCard_feedCard_single_wrap :
    btnsOf (DDBot.separatedActionCard "T" "X" (.single ("A", "http://a")) 0) =
      some [.obj [("title", .str "A"), ("actionURL", .str "http://a")]] ∧
    (∀ (t x : String) (o : Int) (p : String × String),
        btnsOf (DDBot.separatedActionCard t x (.single p) o) =
          some [.obj [("title", .str p.1), ("actionURL", .str p.2)]]) ∧
    (∀ (tr : String × String × String),
        feedLinksOf (DDBot.feedCard (.single tr)) =
          some [.obj [("title", .str tr.1), ("messageURL", .str tr.2.1),
                      ("picURL", .str tr.2.2)]]) :=
  ⟨rfl, fun _ _ _ _ => rfl, fun _ => rfl⟩

/-- C9: the sync and async clients are semantically identical apart from
suspension: `DDBot` and `AsyncDDBot` build equal payloads for every
message-kind operation and argument tuple, compute equal webhook URLs, and
their `post` operations return equal results for every transport outcome. -/
theorem sync_async_equivalence :
    (∀ payload outcome, DDBot.post payload outcome = AsyncDDBot.post payload outcome) ∧
    (∀ s a t, DDBot.webhook s a t = AsyncDDBot.webhook s a t) ∧
    (∀ c m b, DDBot.text c m b = AsyncDDBot.text c m b) ∧
    (∀ t x u p, DDBot.link t x u p = AsyncDDBot.link t x u p) ∧
    (∀ t x m b, DDBot.markdown t x m b = AsyncDDBot.markdown t x m b) ∧
    (∀ t x st su o, DDBot.wholeActionCard t x st su o = AsyncDDBot.wholeActionCard t x st su o) ∧
    (∀ t x bs o, DDBot.separatedActionCard t x bs o = AsyncDDBot.separatedActionCard t x bs o) ∧
    (∀ l, DDBot.feedCard l = AsyncDDBot.feedCard l) :=
  ⟨fun _ o => by cases o <;> rfl, fun _ _ _ => rfl, fun _ _ _ => rfl,
   fun _ _ _ _ => rfl, fun _ _ _ _ => rfl, fun _ _ _ _ _ => rfl,
   fun _ _ _ _ => rfl, fun _ => rfl⟩

theorem post_ok_code_msg (payload : Json) (st : Nat) (tx : String)
    (kvs : List (String × Json)) (c m : Json)
    (h1 : 200 ≤ st) (h2 : st < 300)
    (hc : jLookup kvs "errcode" = some c) (hm : jLookup kvs "errmsg" = some m) :
    DDBot.post payload (.response ⟨st, tx, some (.obj kvs)⟩) =
      .ok ([⟨if pyEqInt c 0 then .info else .error,
             (if pyEqInt c 0 then "请求成功"
              else if pyEqInt c 310000 then "校验未通过" else "API错误") ++
               " errcode: " ++ pyStr c ++ ", errmsg: " ++ pyStr m⟩],
           .decoded (.obj kvs)) := by
  simp only [DDBot.post]
  rw [if_pos ⟨h1, h2⟩]
  simp [subscript, hc, formatCodeMsg, hm]
  split
  · simp_all [Except.map]
  · split <;> simp_all [Except.map]

/-- C3: when the transport call raises or the response status is non-2xx,
`post` logs the failure and returns the `None` sentinel — not an error
object and not a raised exception — and that sentinel is distinct from every
decoded response and from every raw-text return. -/
theorem transport_failure_returns_none :
    (∀ (payload : Json) (tb : String),
        DDBot.post payload (.raise tb) = .ok ([⟨.error, tb⟩], .none)) ∧
    (∀ (payload : Json) (resp : HttpResponse),
        ¬(200 ≤ resp.status ∧ resp.status < 300) →
        DDBot.post payload (.response resp) =
          .ok ([⟨.error, httpStatusTraceback resp.status⟩], .none)) ∧
    (∀ j, PostResult.none ≠ PostResult.decoded j) ∧
    (∀ t, PostResult.none ≠ PostResult.raw t) := by
  refine ⟨fun _ _ => rfl, fun payload resp h => ?_,
          fun j h => PostResult.noConfusion h, fun t h => PostResult.noConfusion h⟩
  simp only [DDBot.post]
  rw [if_neg h]

theorem transport_failure_returns_none_witness :
    DDBot.post (.obj []) (.response ⟨404, "not found", none⟩) =
      .ok ([⟨.error, httpStatusTraceback 404⟩], .none) :=
  transport_failure_returns_none.2.1 (.obj []) ⟨404, "not found", none⟩ (by decide)

/-- C4: when the HTTP call succeeds (2xx) but the body is not valid JSON,
`post` logs the format-error message and returns the raw response text
verbatim; for the body "oops" it returns the literal string "oops". -/
theorem decode_failure_returns_raw_text :
    (∀ (payload : Json) (resp : HttpResponse),
        200 ≤ resp.status → resp.status < 300 → resp.jsonDecoded = none →
        DDBot.post payload (.response resp) =
          .ok ([⟨.error, "请求返回格式错误"⟩], .raw resp.text)) ∧
    DDBot.post (.obj []) (.response ⟨200, "oops", none⟩) =
      .ok ([⟨.error, "请求返回格式错误"⟩], .raw "oops") := by
  constructor
  · intro payload resp h1 h2 h3
    obtain ⟨st, tx, jd⟩ := resp
    simp only at h3
    subst h3
    simp only [DDBot.post]
    rw [if_pos ⟨h1, h2⟩]
  · rfl

theorem decode_failure_returns_raw_text_witness :
    DDBot.post (.obj []) (.response ⟨200, "oops", none⟩) =
      .ok ([⟨.error, "请求返回格式错误"⟩], .raw "oops") :=
  decode_failure_returns_raw_text.1 (.obj []) ⟨200, "oops", none⟩
    (by decide) (by decide) rfl

/-- C2 counterexample: a 2xx response whose body is the valid JSON object
with no errcode key makes `post` raise a KeyError outward, so `post` does
not absorb every failure for every possible response body. -/
theorem post_raises_on_missing_errcode :
    DDBot.post (.obj []) (.response ⟨200, "\x7b\x7d", some (.obj [])⟩) =
      .error (.keyError "errcode") := rfl

/-- C2 amended: `post` never raises when the transport raises, when the
status is non-2xx, when the body is undecodable, or when the decoded body is
a JSON object carrying both errcode and errmsg keys; a decoded body lacking
errcode (or errmsg, or that is not an object) instead escapes as an uncaught
exception. -/
theorem post_absorbs_failures_amended :
    (∀ (payload : Json) (tb : String),
        ∃ r, DDBot.post payload (.raise tb) = .ok r) ∧
    (∀ (payload : Json) (resp : HttpResponse),
        ¬(200 ≤ resp.status ∧ resp.status < 300) →
        ∃ r, DDBot.post payload (.response resp) = .ok r) ∧
    (∀ (payload : Json) (resp : HttpResponse),
        200 ≤ resp.status → resp.status < 300 → resp.jsonDecoded = none →
        ∃ r, DDBot.post payload (.response resp) = .ok r) ∧
    (∀ (payload : Json) (resp : HttpResponse) (kvs : List (String × Json)) (c m : Json),
        200 ≤ resp.status → resp.status < 300 →
        resp.jsonDecoded = some (.obj kvs) →
        jLookup kvs "errcode" = some c → jLookup kvs "errmsg" = some m →
        ∃ r, DDBot.post payload (.response resp) = .ok r) := by
  refine ⟨fun payload tb => ⟨_, rfl⟩, fun payload resp h => ?_,
          fun payload resp h1 h2 h3 => ?_, fun payload resp kvs c m h1 h2 hd hc hm => ?_⟩
  · exact ⟨_, by simp only [DDBot.post]; rw [if_neg h]⟩
  · obtain ⟨st, tx, jd⟩ := resp
    simp only at h3
    subst h3
    exact ⟨_, by simp only [DDBot.post]; rw [if_pos ⟨h1, h2⟩]⟩
  · obtain ⟨st, tx, jd⟩ := resp
    simp only at hd
    subst hd
    exact ⟨_, post_ok_code_msg payload st tx kvs c m h1 h2 hc hm⟩

theorem post_absorbs_failures_amended_witness :
    ∃ r, DDBot.post (.obj []) (.response ⟨200, "body",
        some (.obj [("errcode", .num 0), ("errmsg", .str "ok")])⟩) = .ok r :=
  post_absorbs_failures_amended.2.2.2 (.obj []) ⟨200, "body", _⟩
    [("errcode", .num 0), ("errmsg", .str "ok")] (.num 0) (.str "ok")
    (by decide) (by decide) rfl rfl rfl

/-- C5 counterexample: a decoded JSON object that has an errcode field but no
errmsg field makes `post` raise a KeyError from the log-message formatting
instead of returning the decoded structure. -/
theorem post_raises_on_missing_errmsg :
    DDBot.post (.obj []) (.response ⟨200, "body", some (.obj [("errcode", .num 0)])⟩) =
      .error (.keyError "errmsg") := rfl

/-- C5 amended: whenever the decoded body is a JSON object carrying both
errcode and errmsg, `post` returns the decoded structure unchanged regardless
of the errcode value; the three-way classification (0 / 310000 / other)
affects only the level and message of the single emitted log record. -/
theorem post_returns_decoded_regardless_of_code :
    ∀ (payload : Json) (resp : HttpResponse) (kvs : List (String × Json)) (c m : Json),
      200 ≤ resp.status → resp.status < 300 →
      resp.jsonDecoded = some (.obj kvs) →
      jLookup kvs "errcode" = some c → jLookup kvs "errmsg" = some m →
      DDBot.post payload (.response resp) =
        .ok ([⟨if pyEqInt c 0 then .info else .error,
               (if pyEqInt c 0 then "请求成功"
                else if pyEqInt c 310000 then "校验未通过" else "API错误") ++
                 " errcode: " ++ pyStr c ++ ", errmsg: " ++ pyStr m⟩],
             .decoded (.obj kvs)) := by
  intro payload resp kvs c m h1 h2 hd hc hm
  obtain ⟨st, tx, jd⟩ := resp
  simp only at hd
  subst hd
  exact post_ok_code_msg payload st tx kvs c m h1 h2 hc hm

theorem post_returns_decoded_regardless_of_code_witness :
    DDBot.post (.obj []) (.response ⟨200, "body",
        some (.obj [("errcode", .num 310000), ("errmsg", .str "sign fail")])⟩) =
      .ok ([⟨.error, "校验未通过 errcode: 310000, errmsg: sign fail"⟩],
           .decoded (.obj [("errcode", .num 310000), ("errmsg", .str "sign fail")])) := by
  have h := post_returns_decoded_regardless_of_code (.obj []) ⟨200, "body", _⟩
    [("errcode", .num 310000), ("errmsg", .str "sign fail")] (.num 310000) (.str "sign fail")
    (by decide) (by decide) rfl rfl rfl
  exact h.trans (by rfl)

